import Mathlib

/-!
Shallow embedding of the ThreatFox ETL connector (src/etl_connector.py).

The pipeline is pure apart from its two external collaborators, the HTTP
feed and the MongoDB store; both are modelled as explicit parameters:
the HTTP response is a value handed to the extractor, and the MongoDB
driver calls are an environment of injectable outcomes together with the
collection contents.  Record fields follow the data model of the feed:
a record is a JSON mapping with a known field set, where an absent key
is `none`; `confidence_level` is an integer when present and the
timestamp fields are strings, as the feed declares them.
-/

/-- JSON-like values held by records and documents.  `vnone` is the JSON
null (Python None); `vdt` is a parsed datetime object, abstracted to a
number; list values carry the string sequences of the feed
(`malware_alias`, `reference`, `tags`). -/
inductive Value where
  | vstr : String → Value
  | vint : Int → Value
  | vlist : List String → Value
  | vdt : Nat → Value
  | vnone : Value
deriving DecidableEq

/-- Python `v == "s"` for a string literal: true only for an equal string. -/
def Value.eqStr (v : Value) (s : String) : Bool :=
  match v with
  | Value.vstr t => t = s
  | _ => false

/-- Python `str.strip()`: remove whitespace from both ends. -/
def py_strip (s : String) : String :=
  String.mk (((s.data.dropWhile Char.isWhitespace).reverse.dropWhile Char.isWhitespace).reverse)

/-- Python `c in s` for a single character: membership of the character. -/
def py_contains (s : String) (c : Char) : Bool :=
  s.data.contains c

/-- A raw feed record: the JSON mapping with its known field set.  A field
that is `none` is absent from the mapping. -/
structure RawRecord where
  id : Option Value := none
  ioc_value : Option Value := none
  ioc_type : Option Value := none
  threat_type : Option Value := none
  malware : Option Value := none
  malware_alias : Option Value := none
  first_seen_utc : Option String := none
  last_seen_utc : Option String := none
  confidence_level : Option Int := none
  reference : Option Value := none
  tags : Option Value := none
deriving DecidableEq

/-- One value of the feed envelope: a list of records (processed by the
extraction loop) or any other JSON value (skipped by the isinstance
check). -/
inductive FeedEntry where
  | records : List RawRecord → FeedEntry
  | other : Value → FeedEntry
deriving DecidableEq

/-- The feed envelope: a JSON mapping from arbitrary keys to values. -/
abbrev Feed := List (String × FeedEntry)

/-- An HTTP response: a status code and the decoded JSON envelope, or
`none` when the body is not valid JSON. -/
structure HttpResponse where
  status : Nat
  body : Option Feed
deriving DecidableEq

/-- Embeds `validate_response`: raises on a non-200 status, an undecodable body,
or an empty (falsy) envelope; otherwise returns the decoded data. -/
def validate_response (response : HttpResponse) : Except String Feed :=
  if response.status ≠ 200 then
    Except.error "API returned non-200 status"
  else
    match response.body with
    | none => Except.error "Invalid JSON response"
    | some data =>
      if data.isEmpty then Except.error "Empty API response" else Except.ok data

/-- Embeds `validate_ioc`: raises ValueError when a required field is missing,
when `ioc_value` is not a string that is non-empty after stripping, when a
domain-typed indicator has no dot, or when a present `confidence_level`
is out of range; otherwise returns unit. -/
def validate_ioc (ioc : RawRecord) : Except String Unit :=
  match ioc.ioc_value with
  | none => Except.error "Missing required field: ioc_value"
  | some iv =>
    match ioc.ioc_type with
    | none => Except.error "Missing required field: ioc_type"
    | some it =>
      match ioc.malware with
      | none => Except.error "Missing required field: malware"
      | some _ =>
        match iv with
        | Value.vstr s =>
          if py_strip s = "" then Except.error "Invalid indicator value"
          else if it.eqStr "domain" && !py_contains s '.' then
            Except.error "Invalid domain format"
          else
            match ioc.confidence_level with
            | some c =>
              if 0 ≤ c ∧ c ≤ 100 then Except.ok ()
              else Except.error "Invalid confidence level"
            | none => Except.ok ()
        | _ => Except.error "Invalid indicator value"

/-- True when `validate_ioc` accepts the record (no ValueError). -/
def passes_validation (ioc : RawRecord) : Bool :=
  match validate_ioc ioc with
  | Except.ok _ => true
  | Except.error _ => false

/-- The extraction loop over the envelope: for each key, process
list-valued entries record by record, keeping exactly those that pass
validation (a ValueError is caught per record and the loop continues). -/
def collect_iocs : Feed → List RawRecord
  | [] => []
  | (_, FeedEntry.records items) :: rest =>
    items.filter passes_validation ++ collect_iocs rest
  | (_, FeedEntry.other _) :: rest => collect_iocs rest

/-- Embeds `extract_data`: validate the envelope and run the extraction loop; any
raised error is caught by the outer handler and yields the empty list. -/
def extract_data (response : HttpResponse) : List RawRecord :=
  match validate_response response with
  | Except.error _ => []
  | Except.ok data => collect_iocs data

/-- Embeds `parse_datetime`: a falsy (absent or empty) string yields None
without parsing; otherwise the fixed-pattern parse is attempted, where
`parse` abstracts `datetime.strptime` with the pattern used by the
source, and a parse failure is logged and yields None. -/
def parse_datetime (parse : String → Option Nat) (dt_str : Option String) : Option Nat :=
  match dt_str with
  | none => none
  | some s => if s = "" then none else parse s

/-- A normalized document: a JSON mapping given as an association list. -/
abbrev Doc := List (String × Value)

/-- Lookup of a key in a document (first matching entry). -/
def lookup_key (k : String) : Doc → Option Value
  | [] => none
  | kv :: rest => if kv.1 = k then some kv.2 else lookup_key k rest

/-- The cleaning comprehension keeps an entry iff its value is neither
None nor the empty list. -/
def is_kept (kv : String × Value) : Bool :=
  match kv.2 with
  | Value.vnone => false
  | Value.vlist [] => false
  | _ => true

/-- A parsed-or-absent datetime as a document value. -/
def dt_value : Option Nat → Value
  | none => Value.vnone
  | some n => Value.vdt n

/-- The per-record mapping of `transform_data`: build the document in
source order, then apply the cleaning comprehension.  The subscript
accesses on `ioc_value`, `ioc_type` and `malware` raise KeyError when the
key is absent; that exception is caught by the per-record handler and the
record is skipped (`none`). -/
def transform_doc (parse : String → Option Nat) (now : Nat) (item : RawRecord) : Option Doc :=
  match item.ioc_value, item.ioc_type, item.malware with
  | some iv, some it, some mw =>
    let doc : Doc :=
      [("ioc_id", item.id.getD Value.vnone),
       ("indicator", iv),
       ("ioc_type", it),
       ("threat_type", item.threat_type.getD Value.vnone),
       ("malware", mw),
       ("malware_alias", item.malware_alias.getD (Value.vlist [])),
       ("first_seen", dt_value (parse_datetime parse item.first_seen_utc)),
       ("last_seen", dt_value (parse_datetime parse item.last_seen_utc)),
       ("confidence_level", Value.vint (min (max (item.confidence_level.getD 50) 0) 100)),
       ("reference", item.reference.getD (Value.vlist [])),
       ("tags", item.tags.getD (Value.vlist [])),
       ("etl_timestamp", Value.vdt now)]
    some (doc.filter is_kept)
  | _, _, _ => none

/-- Embeds `transform_data`: the per-record mapping over the batch,
skipping records whose mapping raised. -/
def transform_data (parse : String → Option Nat) (now : Nat) (raw_data : List RawRecord) : List Doc :=
  raw_data.filterMap (transform_doc parse now)

/-- One stored entry after a `$set` update: replaced in place when its
key occurs in the update document, untouched otherwise. -/
def set_entry (upd : Doc) (kv : String × Value) : String × Value :=
  match lookup_key kv.1 upd with
  | some v => (kv.1, v)
  | none => kv

/-- Mongo `$set`: each key of the update document is written into the
stored document, in place for existing keys and appended for new ones;
keys of the stored document absent from the update are untouched. -/
def apply_set (stored upd : Doc) : Doc :=
  stored.map (set_entry upd) ++
    upd.filter (fun kv => (lookup_key kv.1 stored).isNone)

/-- Whether a stored document matches the filter on `indicator` with the
given value. -/
def matches_indicator (iv : Value) (d : Doc) : Bool :=
  lookup_key "indicator" d = some iv

/-- Embeds `UpdateOne` with filter on `indicator`, `$set` update and upsert:
update the first stored document whose `indicator` equals the filter
value, or append the update document when none matches. -/
def update_one : List Doc → Value → Doc → List Doc
  | [], _, doc => [doc]
  | d :: rest, iv, doc =>
    if matches_indicator iv d then apply_set d doc :: rest
    else d :: update_one rest iv doc

/-- The operation list is buildable iff every document has an
`indicator` key (otherwise the comprehension raises KeyError before any
write). -/
def ops_buildable (data : List Doc) : Bool :=
  data.all (fun doc => (lookup_key "indicator" doc).isSome)

/-- Execute the batch of upserts in order, returning the final store and
the number of upserted (inserted) documents. -/
def apply_ops : List Doc → List Doc → List Doc × Nat
  | store, [] => (store, 0)
  | store, doc :: rest =>
    let iv := (lookup_key "indicator" doc).getD Value.vnone
    let ins : Nat := if store.any (matches_indicator iv) then 0 else 1
    let res := apply_ops (update_one store iv doc) rest
    (res.1, ins + res.2)

/-- Python exceptions distinguished by the embedding. -/
inductive PyErr where
  | nameError : PyErr
  | valueError : PyErr
  | otherError : PyErr
deriving DecidableEq

/-- Injectable outcomes of the MongoDB driver calls made by `load_data`,
together with the collection state.  Each `..Ok` flag is false when the
corresponding driver call raises; `existingIndexes` is the result of
`index_information`; `store` is the collection content before the run;
`postLoss` documents vanish between the bulk write and the verification
count (simulated external data loss). -/
structure LoadEnv where
  connectOk : Bool := true
  initialCountOk : Bool := true
  indexInfoOk : Bool := true
  createIndexOk : Bool := true
  bulkOk : Bool := true
  finalCountOk : Bool := true
  existingIndexes : List String := []
  store : List Doc := []
  postLoss : Nat := 0

/-- The three index names ensured by the loader. -/
def required_indexes : List String := ["indicator_1", "ioc_type_1", "malware_1"]

/-- The body of the `try` block of `load_data` once the connection is
open, in source order: initial count, index loop, operation build, bulk
write, verification.  `none` models an exception raised in the body
(turned into a False return by the `except` clause); `some store2` a
normal run ending in `return True` with final collection `store2`. -/
def load_body (env : LoadEnv) (data : List Doc) : Option (List Doc) :=
  if !env.initialCountOk then none
  else if !env.indexInfoOk then none
  else if required_indexes.any (fun n => !env.existingIndexes.contains n) && !env.createIndexOk then none
  else if !ops_buildable data then none
  else if !env.bulkOk then none
  else
    let res := apply_ops env.store data
    if !env.finalCountOk then none
    else if res.1.length - env.postLoss < env.store.length + res.2 then none
    else some res.1

/-- The outcome of `load_data`: the returned value or the propagated
exception, whether a store connection was opened during the call, and
whether it is still open when the call returns or raises. -/
structure LoadResult where
  result : Except PyErr Bool
  opened : Bool
  openAtExit : Bool

/-- Embeds `load_data`, with the `finally` clause modelled on every exit path:
an empty input returns False before any connection is made; when
`MongoClient` itself raises, the except clause catches and starts to
return False, but the `finally` clause evaluates `client.close()` with
`client` unbound and the resulting NameError replaces the return; on
every other path the connection is opened and the `finally` clause
closes it before the function returns. -/
def load_data (env : LoadEnv) (transformed_data : List Doc) : LoadResult :=
  if transformed_data.isEmpty then
    { result := Except.ok false, opened := false, openAtExit := false }
  else if !env.connectOk then
    { result := Except.error PyErr.nameError, opened := false, openAtExit := false }
  else
    match load_body env transformed_data with
    | some _ => { result := Except.ok true, opened := true, openAtExit := false }
    | none => { result := Except.ok false, opened := true, openAtExit := false }

/-- Embeds `run_etl`: the orchestrator.  Returns the overall boolean together
with the list of stages actually invoked; the top-level `except` clause
turns any exception escaping a stage into an overall False. -/
def run_etl (response : HttpResponse) (parse : String → Option Nat) (now : Nat)
    (env : LoadEnv) : Bool × List String :=
  let raw_data := extract_data response
  if raw_data.isEmpty then (false, ["extract"])
  else
    let transformed_data := transform_data parse now raw_data
    if transformed_data.isEmpty then (false, ["extract", "transform"])
    else
      match (load_data env transformed_data).result with
      | Except.ok success => (success, ["extract", "transform", "load"])
      | Except.error _ => (false, ["extract", "transform", "load"])



/-- A parse function that fails on every input (used by sample runs). -/
def no_parse : String → Option Nat := fun _ => none

/-- Sample valid record: a domain indicator with the required fields. -/
def c1_good : RawRecord :=
  { ioc_value := some (Value.vstr "evil.com"),
    ioc_type := some (Value.vstr "domain"),
    malware := some (Value.vstr "X") }

/-- Sample invalid record: the `malware` field is missing. -/
def c1_bad : RawRecord :=
  { ioc_value := some (Value.vstr "bad.example"),
    ioc_type := some (Value.vstr "domain") }

/-- Sample feed grouping an invalid and a valid record under one key. -/
def c1_feed : Feed := [("2024-01-01", FeedEntry.records [c1_bad, c1_good])]

/-- Sample accepted response carrying `c1_feed`. -/
def c1_response : HttpResponse := { status := 200, body := some c1_feed }

/-- Sample record whose confidence level is out of range. -/
def c4_record : RawRecord :=
  { ioc_value := some (Value.vstr "evil.com"),
    ioc_type := some (Value.vstr "domain"),
    malware := some (Value.vstr "X"),
    confidence_level := some 150 }

/-- Sample record whose confidence level is 150 (clamped to 100). -/
def c6_rec_high : RawRecord :=
  { ioc_value := some (Value.vstr "evil.com"),
    ioc_type := some (Value.vstr "domain"),
    malware := some (Value.vstr "X"),
    confidence_level := some 150 }

/-- Sample record whose confidence level is -10 (clamped to 0). -/
def c6_rec_low : RawRecord :=
  { ioc_value := some (Value.vstr "evil.com"),
    ioc_type := some (Value.vstr "domain"),
    malware := some (Value.vstr "X"),
    confidence_level := some (-10) }

/-- Sample record with no confidence level (defaulted to 50). -/
def c6_rec_absent : RawRecord :=
  { ioc_value := some (Value.vstr "evil.com"),
    ioc_type := some (Value.vstr "domain"),
    malware := some (Value.vstr "X") }

/-- Document produced for `c6_rec_high` at timestamp 7. -/
def c6_doc_high : Doc :=
  [("indicator", Value.vstr "evil.com"), ("ioc_type", Value.vstr "domain"),
   ("malware", Value.vstr "X"), ("confidence_level", Value.vint 100),
   ("etl_timestamp", Value.vdt 7)]

/-- Document produced for `c6_rec_low` at timestamp 7. -/
def c6_doc_low : Doc :=
  [("indicator", Value.vstr "evil.com"), ("ioc_type", Value.vstr "domain"),
   ("malware", Value.vstr "X"), ("confidence_level", Value.vint 0),
   ("etl_timestamp", Value.vdt 7)]

/-- Document produced for `c6_rec_absent` at timestamp 7. -/
def c6_doc_absent : Doc :=
  [("indicator", Value.vstr "evil.com"), ("ioc_type", Value.vstr "domain"),
   ("malware", Value.vstr "X"), ("confidence_level", Value.vint 50),
   ("etl_timestamp", Value.vdt 7)]

/-- Sample record with list fields and a null field for presence
reduction: empty alias and tag lists, a null threat type, one
reference. -/
def c5_record : RawRecord :=
  { ioc_value := some (Value.vstr "evil.com"),
    ioc_type := some (Value.vstr "domain"),
    threat_type := some Value.vnone,
    malware := some (Value.vstr "X"),
    malware_alias := some (Value.vlist []),
    reference := some (Value.vlist ["r1"]),
    tags := some (Value.vlist []) }

/-- Document produced for `c5_record` at timestamp 7. -/
def c5_doc : Doc :=
  [("indicator", Value.vstr "evil.com"), ("ioc_type", Value.vstr "domain"),
   ("malware", Value.vstr "X"), ("confidence_level", Value.vint 50),
   ("reference", Value.vlist ["r1"]), ("etl_timestamp", Value.vdt 7)]

/-- Sample record whose timestamp strings fail to parse. -/
def c8_record : RawRecord :=
  { ioc_value := some (Value.vstr "evil.com"),
    ioc_type := some (Value.vstr "domain"),
    malware := some (Value.vstr "X"),
    first_seen_utc := some "not a date",
    last_seen_utc := some "junk" }

/-- Document produced for `c8_record` at timestamp 7 under a failing
parse: both timestamp keys are absent. -/
def c8_doc : Doc :=
  [("indicator", Value.vstr "evil.com"), ("ioc_type", Value.vstr "domain"),
   ("malware", Value.vstr "X"), ("confidence_level", Value.vint 50),
   ("etl_timestamp", Value.vdt 7)]

/-- Sample stored document that does not match the upsert filter. -/
def c9_other : Doc := [("indicator", Value.vstr "other.com")]

/-- Sample stored document matching the upsert filter, holding a
previously parsed timestamp. -/
def c9_stored : Doc :=
  [("indicator", Value.vstr "evil.com"), ("first_seen", Value.vdt 3),
   ("malware", Value.vstr "X")]

/-- Sample update document without a `first_seen` key (the timestamp
failed to parse this run). -/
def c9_upd : Doc :=
  [("indicator", Value.vstr "evil.com"), ("malware", Value.vstr "Y")]

/-- Sample record whose indicator is padded with whitespace. -/
def c10_record : RawRecord :=
  { ioc_value := some (Value.vstr " evil.com "),
    ioc_type := some (Value.vstr "domain"),
    malware := some (Value.vstr "X") }

/-- Document produced for `c10_record` at timestamp 7: the indicator
keeps its padding. -/
def c10_doc : Doc :=
  [("indicator", Value.vstr " evil.com "), ("ioc_type", Value.vstr "domain"),
   ("malware", Value.vstr "X"), ("confidence_level", Value.vint 50),
   ("etl_timestamp", Value.vdt 7)]

/-- Sample valid record for the orchestrator run. -/
def c7_record : RawRecord :=
  { ioc_value := some (Value.vstr "evil.com"),
    ioc_type := some (Value.vstr "domain"),
    malware := some (Value.vstr "X") }

/-- Sample accepted response carrying one valid record. -/
def c7_response : HttpResponse :=
  { status := 200, body := some [("2024-01-01", FeedEntry.records [c7_record])] }

/-- Sample rejected response: a 404 status. -/
def c7_response_404 : HttpResponse := { status := 404, body := none }

theorem lookup_key_filter_keeps (k : String) (p : String × Value → Bool) :
    ∀ l : Doc, (∀ v : Value, (k, v) ∈ l → p (k, v) = true) →
      lookup_key k (l.filter p) = lookup_key k l := by
  intro l
  induction l with
  | nil => intro _; rfl
  | cons kv rest ih =>
    intro h
    by_cases hk : kv.1 = k
    · have hkv : kv = (k, kv.2) := by rw [← hk]
      have hp : p kv = true := by
        rw [hkv]; exact h kv.2 (by rw [← hkv]; exact List.mem_cons_self kv rest)
      rw [List.filter_cons, hp, if_pos rfl]
      simp [lookup_key, hk]
    · have hrest := ih (fun v hv => h v (List.mem_cons_of_mem kv hv))
      cases hp : p kv with
      | true =>
        rw [List.filter_cons, hp, if_pos rfl]
        simp [lookup_key, hk, hrest]
      | false =>
        rw [List.filter_cons, hp, if_neg Bool.false_ne_true]
        simp [lookup_key, hk, hrest]

theorem lookup_key_filter_drops (k : String) (p : String × Value → Bool) :
    ∀ l : Doc, (∀ v : Value, (k, v) ∈ l → p (k, v) = false) →
      lookup_key k (l.filter p) = none := by
  intro l
  induction l with
  | nil => intro _; rfl
  | cons kv rest ih =>
    intro h
    have hrest := ih (fun v hv => h v (List.mem_cons_of_mem kv hv))
    by_cases hk : kv.1 = k
    · have hkv : kv = (k, kv.2) := by rw [← hk]
      have hp : p kv = false := by
        rw [hkv]; exact h kv.2 (by rw [← hkv]; exact List.mem_cons_self kv rest)
      rw [List.filter_cons, hp, if_neg Bool.false_ne_true]
      exact hrest
    · cases hp : p kv with
      | true =>
        rw [List.filter_cons, hp, if_pos rfl]
        simp [lookup_key, hk, hrest]
      | false =>
        rw [List.filter_cons, hp, if_neg Bool.false_ne_true]
        exact hrest

theorem mem_collect_iocs (ioc : RawRecord) (items : List RawRecord) (k : String) :
    ∀ feed : Feed, (k, FeedEntry.records items) ∈ feed → ioc ∈ items →
      passes_validation ioc = true → ioc ∈ collect_iocs feed := by
  intro feed
  induction feed with
  | nil => intro h; exact absurd h (List.not_mem_nil _)
  | cons e rest ih =>
    intro hmem hioc hval
    rcases List.mem_cons.mp hmem with he | he
    · rw [← he]
      exact List.mem_append_left _ (List.mem_filter.mpr ⟨hioc, hval⟩)
    · obtain ⟨k2, entry⟩ := e
      cases entry with
      | records items2 =>
        exact List.mem_append_right _ (ih he hioc hval)
      | other v =>
        exact ih he hioc hval

theorem Value.eqStr_iff (v : Value) (s : String) :
    Value.eqStr v s = true ↔ v = Value.vstr s := by
  cases v <;> simp [Value.eqStr]

/-- C1: for every feed whose envelope is accepted, extraction processes
each record independently: every record that passes `validate_ioc`
appears in the output of `extract_data`, whatever the other records of
the feed do. -/
theorem C1_extract_keeps_every_valid_record
    (response : HttpResponse) (feed : Feed) (k : String)
    (items : List RawRecord) (ioc : RawRecord)
    (hacc : validate_response response = Except.ok feed)
    (hgrp : (k, FeedEntry.records items) ∈ feed)
    (hmem : ioc ∈ items)
    (hok : passes_validation ioc = true) :
    ioc ∈ extract_data response := by
  unfold extract_data
  rw [hacc]
  exact mem_collect_iocs ioc items k feed hgrp hmem hok

/-- C1 witness: in a feed that pairs an invalid record with a valid one
under one key, the valid record is still extracted. -/
theorem C1_witness : c1_good ∈ extract_data c1_response :=
  C1_extract_keeps_every_valid_record c1_response c1_feed "2024-01-01" [c1_bad, c1_good]
    c1_good rfl (by decide) (by decide) (by decide)

/-- C2 (evaluation of the code at the failing input): on a non-empty
input, when the MongoClient constructor raises, `load_data` does not
return False: the except clause catches and starts to return False, but
the `finally` clause evaluates `client.close()` with `client` unbound,
and the resulting NameError propagates out of `load_data`. -/
theorem C2_connect_failure_raises :
    (load_data { connectOk := false } [[("indicator", Value.vstr "evil.com")]]).result =
      Except.error PyErr.nameError := rfl

/-- C3: on every exit path of `load_data`, no store connection remains
open when the function returns or raises: the connection opened after a
non-empty input is closed by the `finally` clause on the normal path,
the verification-failure path and every exception path. -/
theorem C3_connection_closed_on_every_exit (env : LoadEnv) (data : List Doc) :
    (load_data env data).openAtExit = false := by
  by_cases h1 : data.isEmpty
  · simp [load_data, h1]
  · by_cases h2 : env.connectOk = true
    · cases h3 : load_body env data <;> simp [load_data, h1, h2, h3]
    · simp [load_data, h1, h2]

/-- C4: `validate_ioc` fails exactly when a required field is absent, or
the indicator is not a string that is non-empty after stripping, or a
domain-typed indicator contains no dot, or a present confidence level
lies outside the range 0 to 100; otherwise the record is accepted. -/
theorem C4_validate_ioc_fails_iff (ioc : RawRecord) :
    passes_validation ioc = false ↔
      ((ioc.ioc_value = none ∨ ioc.ioc_type = none ∨ ioc.malware = none) ∨
       (¬ ∃ s, ioc.ioc_value = some (Value.vstr s) ∧ py_strip s ≠ "") ∨
       (ioc.ioc_type = some (Value.vstr "domain") ∧
         ∀ s, ioc.ioc_value = some (Value.vstr s) → py_contains s '.' = false) ∨
       (∃ c, ioc.confidence_level = some c ∧ (c < 0 ∨ 100 < c))) := by
  obtain ⟨i, iv, it, tt, mw, ma, fs, ls, cl, ref, tg⟩ := ioc
  cases iv with
  | none => simp [passes_validation, validate_ioc]
  | some v =>
    cases it with
    | none => simp [passes_validation, validate_ioc]
    | some t =>
      cases mw with
      | none => simp [passes_validation, validate_ioc]
      | some m =>
        cases v with
        | vstr s =>
          by_cases hst : py_strip s = ""
          · apply iff_of_true
            · simp [passes_validation, validate_ioc, hst]
            · refine Or.inr (Or.inl ?_)
              rintro ⟨s2, hs2, hne⟩
              rw [Option.some.injEq, Value.vstr.injEq] at hs2
              exact hne (hs2 ▸ hst)
          · by_cases hd : (Value.eqStr t "domain" && !py_contains s '.') = true
            · apply iff_of_true
              · simp [passes_validation, validate_ioc, hst, hd]
              · obtain ⟨hd1, hd2⟩ : Value.eqStr t "domain" = true ∧ (!py_contains s '.') = true := by
                  simpa using hd
                refine Or.inr (Or.inr (Or.inl ⟨?_, ?_⟩))
                · rw [(Value.eqStr_iff t "domain").mp hd1]
                · intro s2 hs2
                  rw [Option.some.injEq, Value.vstr.injEq] at hs2
                  rw [← hs2]
                  simpa using hd2
            · have hd2 : (Value.eqStr t "domain" && !py_contains s '.') = false :=
                Bool.not_eq_true _ ▸ (by simpa using hd)
              cases cl with
              | some c =>
                by_cases hc : 0 ≤ c ∧ c ≤ 100
                · apply iff_of_false
                  · simp [passes_validation, validate_ioc, hst, hd2, hc]
                  · rintro (h | h | h | h)
                    · rcases h with h | h | h <;> exact Option.noConfusion h
                    · exact h ⟨s, rfl, hst⟩
                    · rcases h with ⟨hdom, hall⟩
                      rw [Option.some.injEq] at hdom
                      have h1 : Value.eqStr t "domain" = true :=
                        (Value.eqStr_iff t "domain").mpr hdom
                      have h2 : py_contains s '.' = false := hall s rfl
                      rw [h1, h2] at hd2
                      exact Bool.noConfusion hd2
                    · rcases h with ⟨c2, hc2, hr⟩
                      rw [Option.some.injEq] at hc2
                      subst hc2
                      omega
                · apply iff_of_true
                  · simp [passes_validation, validate_ioc, hst, hd2, hc]
                  · exact Or.inr (Or.inr (Or.inr ⟨c, rfl, by omega⟩))
              | none =>
                apply iff_of_false
                · simp [passes_validation, validate_ioc, hst, hd2]
                · rintro (h | h | h | h)
                  · rcases h with h | h | h <;> exact Option.noConfusion h
                  · exact h ⟨s, rfl, hst⟩
                  · rcases h with ⟨hdom, hall⟩
                    rw [Option.some.injEq] at hdom
                    have h1 : Value.eqStr t "domain" = true :=
                      (Value.eqStr_iff t "domain").mpr hdom
                    have h2 : py_contains s '.' = false := hall s rfl
                    rw [h1, h2] at hd2
                    exact Bool.noConfusion hd2
                  · rcases h with ⟨c2, hc2, _⟩
                    exact Option.noConfusion hc2
        | vint n =>
          apply iff_of_true
          · simp [passes_validation, validate_ioc]
          · exact Or.inr (Or.inl (by rintro ⟨s2, hs2, _⟩; exact Value.noConfusion (Option.some.injEq .. ▸ hs2)))
        | vlist l =>
          apply iff_of_true
          · simp [passes_validation, validate_ioc]
          · exact Or.inr (Or.inl (by rintro ⟨s2, hs2, _⟩; exact Value.noConfusion (Option.some.injEq .. ▸ hs2)))
        | vdt n =>
          apply iff_of_true
          · simp [passes_validation, validate_ioc]
          · exact Or.inr (Or.inl (by rintro ⟨s2, hs2, _⟩; exact Value.noConfusion (Option.some.injEq .. ▸ hs2)))
        | vnone =>
          apply iff_of_true
          · simp [passes_validation, validate_ioc]
          · exact Or.inr (Or.inl (by rintro ⟨s2, hs2, _⟩; exact Value.noConfusion (Option.some.injEq .. ▸ hs2)))

/-- C4 witness: a record whose confidence level is 150 fails validation. -/
theorem C4_witness : passes_validation c4_record = false :=
  (C4_validate_ioc_fails_iff c4_record).mpr
    (Or.inr (Or.inr (Or.inr ⟨150, rfl, Or.inr (by norm_num)⟩)))

theorem is_kept_spec (kv : String × Value) :
    is_kept kv = true ↔ kv.2 ≠ Value.vnone ∧ kv.2 ≠ Value.vlist [] := by
  obtain ⟨k, v⟩ := kv
  rcases v with s | n | l | n | _
  · simp [is_kept]
  · simp [is_kept]
  · cases l <;> simp [is_kept]
  · simp [is_kept]
  · simp [is_kept]

/-- C5: every document produced by `transform_data` satisfies presence
reduction: no key of the document is bound to None or to an empty
sequence, and the key `etl_timestamp` is present, bound to the
generation time. -/
theorem C5_presence_reduction (parse : String → Option Nat) (now : Nat)
    (raw_data : List RawRecord) (doc : Doc)
    (hdoc : doc ∈ transform_data parse now raw_data) :
    (∀ kv ∈ doc, kv.2 ≠ Value.vnone ∧ kv.2 ≠ Value.vlist []) ∧
    lookup_key "etl_timestamp" doc = some (Value.vdt now) := by
  obtain ⟨item, _, hmap⟩ := List.mem_filterMap.mp hdoc
  unfold transform_doc at hmap
  rcases h1 : item.ioc_value with _ | iv
  · rw [h1] at hmap; exact Option.noConfusion hmap
  rcases h2 : item.ioc_type with _ | it
  · rw [h1, h2] at hmap; exact Option.noConfusion hmap
  rcases h3 : item.malware with _ | mw
  · rw [h1, h2, h3] at hmap; exact Option.noConfusion hmap
  rw [h1, h2, h3] at hmap
  injection hmap with hmap
  subst hmap
  constructor
  · intro kv hkv
    exact (is_kept_spec kv).mp (List.mem_filter.mp hkv).2
  · rw [lookup_key_filter_keeps "etl_timestamp" is_kept _ ?_]
    · rfl
    · intro v hv
      simp at hv
      subst hv
      rfl

/-- C5 witness: the document produced for a record with empty list
fields and a null field has only non-empty values and carries its
generation timestamp. -/
theorem C5_witness :
    lookup_key "etl_timestamp" c5_doc = some (Value.vdt 7) :=
  (C5_presence_reduction no_parse 7 [c5_record] c5_doc (by decide)).2

/-- C6: the confidence level of every produced document is 50 when the
record has none, and otherwise the record value clamped into the range
0 to 100. -/
theorem C6_confidence_clamped (parse : String → Option Nat) (now : Nat)
    (item : RawRecord) (doc : Doc)
    (h : transform_doc parse now item = some doc) :
    lookup_key "confidence_level" doc =
      some (Value.vint (match item.confidence_level with
                        | none => 50
                        | some c => max 0 (min c 100))) := by
  unfold transform_doc at h
  rcases h1 : item.ioc_value with _ | iv
  · rw [h1] at h; exact Option.noConfusion h
  rcases h2 : item.ioc_type with _ | it
  · rw [h1, h2] at h; exact Option.noConfusion h
  rcases h3 : item.malware with _ | mw
  · rw [h1, h2, h3] at h; exact Option.noConfusion h
  rw [h1, h2, h3] at h
  injection h with h
  subst h
  rw [lookup_key_filter_keeps "confidence_level" is_kept _ ?_]
  · show some (Value.vint (min (max (item.confidence_level.getD 50) 0) 100)) = _
    cases hcl : item.confidence_level with
    | none => norm_num
    | some c =>
      show some (Value.vint (min (max c 0) 100)) = some (Value.vint (max 0 (min c 100)))
      simp only [Option.some.injEq, Value.vint.injEq]
      omega
  · intro v hv
    simp at hv
    subst hv
    rfl

/-- C6 witness: confidence 150 is clamped to 100, -10 to 0, and an
absent confidence defaults to 50. -/
theorem C6_witness :
    lookup_key "confidence_level" c6_doc_high = some (Value.vint 100) ∧
    lookup_key "confidence_level" c6_doc_low = some (Value.vint 0) ∧
    lookup_key "confidence_level" c6_doc_absent = some (Value.vint 50) := by
  refine ⟨?_, ?_, ?_⟩
  · rw [C6_confidence_clamped no_parse 7 c6_rec_high c6_doc_high rfl]
    decide
  · rw [C6_confidence_clamped no_parse 7 c6_rec_low c6_doc_low rfl]
    decide
  · rw [C6_confidence_clamped no_parse 7 c6_rec_absent c6_doc_absent rfl]
    decide

/-- C8: a record whose timestamp value fails to parse is still
transformed into a document; the corresponding timestamp key is simply
absent from the produced document. -/
theorem C8_parse_failure_not_fatal (parse : String → Option Nat) (now : Nat)
    (item : RawRecord) (iv it mw : Value)
    (hiv : item.ioc_value = some iv) (hit : item.ioc_type = some it)
    (hmw : item.malware = some mw) :
    (transform_doc parse now item).isSome = true ∧
    (parse_datetime parse item.first_seen_utc = none →
      ∀ doc, transform_doc parse now item = some doc →
        lookup_key "first_seen" doc = none) ∧
    (parse_datetime parse item.last_seen_utc = none →
      ∀ doc, transform_doc parse now item = some doc →
        lookup_key "last_seen" doc = none) := by
  refine ⟨?_, ?_, ?_⟩
  · unfold transform_doc
    rw [hiv, hit, hmw]
    rfl
  · intro hf doc h
    unfold transform_doc at h
    rw [hiv, hit, hmw] at h
    injection h with h
    subst h
    apply lookup_key_filter_drops
    intro v hv
    simp at hv
    subst hv
    rw [hf]
    rfl
  · intro hf doc h
    unfold transform_doc at h
    rw [hiv, hit, hmw] at h
    injection h with h
    subst h
    apply lookup_key_filter_drops
    intro v hv
    simp at hv
    subst hv
    rw [hf]
    rfl

/-- C8 witness: a record with two unparsable timestamp strings is still
transformed, and both timestamp keys are absent from its document. -/
theorem C8_witness :
    (transform_doc no_parse 7 c8_record).isSome = true ∧
    lookup_key "first_seen" c8_doc = none ∧
    lookup_key "last_seen" c8_doc = none := by
  have h := C8_parse_failure_not_fatal no_parse 7 c8_record
    (Value.vstr "evil.com") (Value.vstr "domain") (Value.vstr "X") rfl rfl rfl
  exact ⟨h.1, h.2.1 rfl c8_doc rfl, h.2.2 rfl c8_doc rfl⟩

/-- C10: a record whose indicator is a string that is non-empty only
after stripping is accepted by validation (when the remaining checks
hold), and the transformer stores the original untrimmed string as the
indicator of the produced document. -/
theorem C10_padded_indicator_kept_untrimmed (item : RawRecord) (s : String)
    (hiv : item.ioc_value = some (Value.vstr s))
    (hstrip : py_strip s ≠ "")
    (hit : item.ioc_type.isSome = true)
    (hmw : item.malware.isSome = true)
    (hdom : item.ioc_type = some (Value.vstr "domain") → py_contains s '.' = true)
    (hconf : ∀ c, item.confidence_level = some c → 0 ≤ c ∧ c ≤ 100) :
    passes_validation item = true ∧
    ∀ parse now doc, transform_doc parse now item = some doc →
      lookup_key "indicator" doc = some (Value.vstr s) := by
  obtain ⟨t, hit2⟩ := Option.isSome_iff_exists.mp hit
  obtain ⟨m, hmw2⟩ := Option.isSome_iff_exists.mp hmw
  constructor
  · have hd : (Value.eqStr t "domain" && !py_contains s '.') = false := by
      by_cases ht : t = Value.vstr "domain"
      · have hc := hdom (by rw [hit2, ht])
        simp [hc]
      · have h2 : Value.eqStr t "domain" = false := by
          rcases Bool.eq_false_or_eq_true (Value.eqStr t "domain") with h | h
          · exact absurd ((Value.eqStr_iff t "domain").mp h) ht
          · exact h
        simp [h2]
    unfold passes_validation validate_ioc
    rw [hiv, hit2, hmw2]
    rcases hcl : item.confidence_level with _ | c
    · simp [hstrip, hd]
    · have hc := hconf c hcl
      simp [hstrip, hd, hc]
  · intro parse now doc h
    unfold transform_doc at h
    rw [hiv, hit2, hmw2] at h
    injection h with h
    subst h
    rw [lookup_key_filter_keeps "indicator" is_kept _ ?_]
    · rfl
    · intro v hv
      simp at hv
      subst hv
      rfl

/-- C10 witness: the padded indicator string is accepted and stored with
its padding, although it differs from its stripped form. -/
theorem C10_witness :
    passes_validation c10_record = true ∧
    lookup_key "indicator" c10_doc = some (Value.vstr " evil.com ") ∧
    py_strip " evil.com " ≠ " evil.com " := by
  have h := C10_padded_indicator_kept_untrimmed c10_record " evil.com " rfl
    (by decide) rfl rfl (fun _ => by decide)
    (by intro c hc; simp [c10_record] at hc)
  exact ⟨h.1, h.2 no_parse 7 c10_doc rfl, by decide⟩

theorem update_one_first_match (iv : Value) (upd stored : Doc) (post : List Doc) :
    ∀ pre : List Doc, (∀ d ∈ pre, matches_indicator iv d = false) →
      matches_indicator iv stored = true →
      update_one (pre ++ stored :: post) iv upd = pre ++ apply_set stored upd :: post := by
  intro pre
  induction pre with
  | nil =>
    intro _ hmatch
    simp [update_one, hmatch]
  | cons d rest ih =>
    intro hpre hmatch
    have hd := hpre d (List.mem_cons_self d rest)
    have ih2 := ih (fun d2 h2 => hpre d2 (List.mem_cons_of_mem d h2)) hmatch
    simp [update_one, hd, ih2]

theorem lookup_key_append (k : String) (l2 : Doc) :
    ∀ l1 : Doc, lookup_key k (l1 ++ l2) =
      match lookup_key k l1 with
      | some v => some v
      | none => lookup_key k l2 := by
  intro l1
  induction l1 with
  | nil => rfl
  | cons kv rest ih =>
    by_cases hk : kv.1 = k
    · simp [lookup_key, hk]
    · simp [lookup_key, hk, ih]

theorem set_entry_fst (upd : Doc) (kv : String × Value) :
    (set_entry upd kv).1 = kv.1 := by
  unfold set_entry
  cases lookup_key kv.1 upd <;> rfl

theorem lookup_key_map_set (k : String) (upd : Doc) (habsent : lookup_key k upd = none) :
    ∀ stored : Doc, lookup_key k (stored.map (set_entry upd)) = lookup_key k stored := by
  intro stored
  induction stored with
  | nil => rfl
  | cons kv rest ih =>
    rw [List.map_cons]
    by_cases hk : kv.1 = k
    · have he : set_entry upd kv = kv := by
        unfold set_entry
        rw [hk, habsent]
      rw [he]
      simp [lookup_key, hk]
    · have hfst := set_entry_fst upd kv
      simp [lookup_key, hfst, hk, ih]

theorem lookup_key_none_mem (k : String) :
    ∀ l : Doc, lookup_key k l = none → ∀ v : Value, (k, v) ∈ l → False := by
  intro l
  induction l with
  | nil =>
    intro _ v hv
    exact absurd hv (List.not_mem_nil _)
  | cons kv rest ih =>
    intro hl v hv
    by_cases hk : kv.1 = k
    · rw [show lookup_key k (kv :: rest) =
        if kv.1 = k then some kv.2 else lookup_key k rest from rfl, if_pos hk] at hl
      exact Option.noConfusion hl
    · rcases List.mem_cons.mp hv with he | he
      · exact hk (by rw [← he])
      · rw [show lookup_key k (kv :: rest) =
          if kv.1 = k then some kv.2 else lookup_key k rest from rfl, if_neg hk] at hl
        exact ih hl v he

theorem lookup_key_filter_of_none (k : String) (p : String × Value → Bool) (l : Doc)
    (h : lookup_key k l = none) : lookup_key k (l.filter p) = none :=
  lookup_key_filter_drops k p l (fun v hv => (lookup_key_none_mem k l h v hv).elim)

theorem apply_set_preserves_absent (stored upd : Doc) (k : String)
    (habsent : lookup_key k upd = none) :
    lookup_key k (apply_set stored upd) = lookup_key k stored := by
  unfold apply_set
  rw [lookup_key_append, lookup_key_map_set k upd habsent stored]
  cases hl : lookup_key k stored with
  | some v => rfl
  | none => exact lookup_key_filter_of_none k _ upd habsent

/-- C9: the upsert updates the first stored document matching the
indicator by setting only the keys present in the update document; every
key of the stored document absent from the update keeps its previously
stored value. -/
theorem C9_set_preserves_stored_keys
    (pre post : List Doc) (stored upd : Doc) (iv : Value) (k : String)
    (hpre : ∀ d ∈ pre, matches_indicator iv d = false)
    (hmatch : matches_indicator iv stored = true)
    (habsent : lookup_key k upd = none) :
    update_one (pre ++ stored :: post) iv upd = pre ++ apply_set stored upd :: post ∧
    lookup_key k (apply_set stored upd) = lookup_key k stored :=
  ⟨update_one_first_match iv upd stored post pre hpre hmatch,
   apply_set_preserves_absent stored upd k habsent⟩

/-- C9 witness: an update without `first_seen` leaves the stored parsed
timestamp in place. -/
theorem C9_witness :
    update_one [c9_other, c9_stored] (Value.vstr "evil.com") c9_upd =
      [c9_other, apply_set c9_stored c9_upd] ∧
    lookup_key "first_seen" (apply_set c9_stored c9_upd) = some (Value.vdt 3) := by
  have h := C9_set_preserves_stored_keys [c9_other] [] c9_stored c9_upd
    (Value.vstr "evil.com") "first_seen"
    (by intro d hd; simp at hd; subst hd; decide) (by decide) (by decide)
  exact ⟨h.1, by rw [h.2]; decide⟩

/-- C7: run_etl aborts with False before transforming when extraction is
empty, aborts with False before loading when transformation is empty,
otherwise returns exactly the boolean result of the loader, and turns an
exception escaping the loader into an overall False: it never raises. -/
theorem C7_run_etl_control_flow (response : HttpResponse)
    (parse : String → Option Nat) (now : Nat) (env : LoadEnv) :
    (extract_data response = [] → run_etl response parse now env = (false, ["extract"])) ∧
    (extract_data response ≠ [] →
      transform_data parse now (extract_data response) = [] →
      run_etl response parse now env = (false, ["extract", "transform"])) ∧
    (extract_data response ≠ [] →
      transform_data parse now (extract_data response) ≠ [] →
      (∀ b, (load_data env (transform_data parse now (extract_data response))).result =
          Except.ok b →
        run_etl response parse now env = (b, ["extract", "transform", "load"])) ∧
      (∀ e, (load_data env (transform_data parse now (extract_data response))).result =
          Except.error e →
        run_etl response parse now env = (false, ["extract", "transform", "load"]))) := by
  refine ⟨?_, ?_, ?_⟩
  · intro h
    simp [run_etl, h]
  · intro h1 h2
    obtain ⟨a, l, hal⟩ := List.exists_cons_of_ne_nil h1
    rw [hal] at h2
    simp [run_etl, hal, h2]
  · intro h1 h2
    obtain ⟨a, l, hal⟩ := List.exists_cons_of_ne_nil h1
    rw [hal] at h2
    obtain ⟨b2, l2, hbl⟩ := List.exists_cons_of_ne_nil h2
    constructor
    · intro b hb
      rw [hal, hbl] at hb
      simp [run_etl, hal, hbl, hb]
    · intro e he
      rw [hal, hbl] at he
      simp [run_etl, hal, hbl, he]

/-- C7 witness: a 404 response aborts right after extraction, and a
connect failure inside the loader surfaces as an overall False after all
three stages were invoked. -/
theorem C7_witness :
    run_etl c7_response_404 no_parse 0 {} = (false, ["extract"]) ∧
    run_etl c7_response no_parse 7 { connectOk := false } =
      (false, ["extract", "transform", "load"]) := by
  constructor
  · exact (C7_run_etl_control_flow c7_response_404 no_parse 0 {}).1 rfl
  · exact ((C7_run_etl_control_flow c7_response no_parse 7 { connectOk := false }).2.2
      (by decide) (by decide)).2 PyErr.nameError rfl
